import Mathlib

/-!
# Verification of `clinic_monitor.py`

A shallow embedding of the clinic booking monitor: a polling loop that
scrapes a booking page with a headless browser, and posts a rate-limited
Slack alert when appointment slots appear.  The Python source is a single
file; each definition below is translated from the function of the same
name.  Timestamps (`time.time()` values) are modelled as integers, external
effects (browser launch, page navigation, webhook POST) as explicit inputs,
and log/side-effect behaviour as event traces.
-/

namespace ClinicMonitor

/-! ## URL parsing (model of `urllib.parse.urlparse`, the two fields used)

`validate_environment` only looks at `parsed.scheme` and `parsed.netloc`.
CPython's `urlsplit` takes the scheme as the (lower-cased) prefix before the
first `:` when that prefix is non-empty and made of ASCII letters, digits and
`+-.`; the netloc follows a leading `//` and runs to the first `/`, `?` or
`#`. -/

def schemeChar (c : Char) : Bool :=
  (c.isAlpha && c.toNat < 128) || c.isDigit || c = '+' || c = '-' || c = '.'

/-- Split off everything before the first `:`; `none` when there is no `:`. -/
def splitColon : List Char → Option (List Char × List Char)
  | [] => none
  | c :: cs =>
    if c = ':' then some ([], cs)
    else match splitColon cs with
      | some (pre, post) => some (c :: pre, post)
      | none => none

structure ParseResult where
  scheme : List Char
  netloc : List Char
  deriving DecidableEq, Repr

def notNetlocEnd (c : Char) : Bool := !(c = '/' || c = '?' || c = '#')

def urlparse (url : List Char) : ParseResult :=
  let (scheme, rest) :=
    match splitColon url with
    | some (pre, post) =>
      if pre ≠ [] && pre.all schemeChar then (pre.map Char.toLower, post)
      else ([], url)
    | none => ([], url)
  let netloc :=
    if rest.take 2 = ['/', '/'] then (rest.drop 2).takeWhile notNetlocEnd
    else []
  ⟨scheme, netloc⟩

/-- Truthiness check `all([parsed.scheme, parsed.netloc])` from the source:
both fields are non-empty strings. -/
def wellFormedUrl (url : List Char) : Bool :=
  !(urlparse url).scheme.isEmpty && !(urlparse url).netloc.isEmpty

/-! ## `validate_environment` -/

/-- The distinct `ValueError`s `validate_environment` can raise (the
`except Exception` blocks re-wrap the inner `ValueError`s without changing
which condition fired, so the error cases are in source order). -/
inductive ConfigError where
  | webhookRequired
  | webhookInvalidUrl
  | webhookNotSlack
  | clinicRequired
  | clinicInvalidUrl
  deriving DecidableEq, Repr

/-- Embedding of `validate_environment` (lines 33–61): the module-level
configuration strings are passed explicitly.  On success the function only
logs; here it returns `()`. -/
def validate_environment (slackWebhookUrl clinicUrl : List Char) :
    Except ConfigError Unit :=
  if slackWebhookUrl.isEmpty then .error .webhookRequired
  else
    let parsed := urlparse slackWebhookUrl
    if parsed.scheme.isEmpty || parsed.netloc.isEmpty then
      .error .webhookInvalidUrl
    else if !(List.isSuffixOf "slack.com".data parsed.netloc) then
      .error .webhookNotSlack
    else if clinicUrl.isEmpty then .error .clinicRequired
    else
      let parsedC := urlparse clinicUrl
      if parsedC.scheme.isEmpty || parsedC.netloc.isEmpty then
        .error .clinicInvalidUrl
      else .ok ()

/-! ## `send_slack_notification`

`requests.post` is modelled by its outcome, an input: either an HTTP
response with a status code, or a raised transport error.  The function's
observable behaviour is which log line it emits. -/

/-- Outcome of the `requests.post` call to the webhook. -/
inductive PostOutcome where
  | response (status : Nat)
  | transportError (msg : List Char)
  deriving DecidableEq, Repr

/-- The log line `send_slack_notification` ends with. -/
inductive NotifyLog where
  | sentOk
  | failedStatus (status : Nat)
  | errorLogged (msg : List Char)
  deriving DecidableEq, Repr

/-- Body of the `try:` block in `send_slack_notification` (lines 173–179):
the POST may raise (surfacing as `.error`), otherwise the status code is
compared against 200. -/
def send_slack_notification_try (post : PostOutcome) :
    Except (List Char) NotifyLog :=
  match post with
  | .transportError m => .error m
  | .response s => .ok (if s = 200 then .sentOk else .failedStatus s)

/-- Embedding of `send_slack_notification` (lines 151–181): the
`except Exception` handler (lines 180–181) turns any raise into a logged
error, so the function itself never raises — its result type records that a
raise was representable and is always `.ok`. -/
def send_slack_notification (post : PostOutcome) :
    Except (List Char) NotifyLog :=
  match send_slack_notification_try post with
  | .ok l => .ok l
  | .error m => .ok (.errorLogged m)

/-! ## `monitor_bookings`

One loop iteration reads `current_time` (`time.time()`, modelled as an
integer), calls `check_availability` (modelled by its boolean result), and
conditionally notifies.  The webhook outcome for the iteration is an input
so that the loop's use of the notifier result — none, in the source — is
explicit. -/

/-- What one iteration of the `while True:` loop does. -/
structure StepResult where
  /-- `last_notification_time` after the iteration. -/
  lastNotificationTime : Int
  /-- How many times `send_slack_notification` was called this iteration. -/
  notifierCalls : Nat
  /-- The notifier's log line, when it was called. -/
  notifyLog : Option NotifyLog
  /-- Whether the "skipping notification due to interval" line was logged. -/
  skipLogged : Bool
  deriving DecidableEq, Repr

/-- Embedding of one iteration of `monitor_bookings` (lines 191–209), given
the recorded `current_time`, the availability result and the webhook
outcome. -/
def monitor_step (notificationInterval lastNotificationTime currentTime : Int)
    (hasAvailability : Bool) (post : PostOutcome) : StepResult :=
  if hasAvailability then
    if currentTime - lastNotificationTime > notificationInterval then
      { lastNotificationTime := currentTime
        notifierCalls := 1
        notifyLog := (send_slack_notification post).toOption
        skipLogged := false }
    else
      { lastNotificationTime := lastNotificationTime
        notifierCalls := 0
        notifyLog := none
        skipLogged := true }
  else
    { lastNotificationTime := lastNotificationTime
      notifierCalls := 0
      notifyLog := none
      skipLogged := false }

/-- One scheduled iteration of the monitor loop: either a poll with its
recorded time, availability result and webhook outcome, or a
`KeyboardInterrupt` delivered during the iteration. -/
inductive IterInput where
  | poll (currentTime : Int) (hasAvailability : Bool) (post : PostOutcome)
  | interrupt
  deriving DecidableEq, Repr

/-- Runs `monitor_bookings` (lines 184–216) over a finite schedule of
iterations, from a given `last_notification_time`.  Returns how the loop
ended (`.ok ()` — the `except KeyboardInterrupt` handler breaks cleanly, and
an exhausted schedule just stops the model) and the times at which the
notifier was invoked, in order. -/
def monitor_bookings_run (notificationInterval : Int) :
    Int → List IterInput → Except (List Char) Unit × List Int
  | _, [] => (.ok (), [])
  | _, .interrupt :: _ => (.ok (), [])
  | last, .poll now avail post :: rest =>
    let r := monitor_step notificationInterval last now avail post
    let next := monitor_bookings_run notificationInterval
      r.lastNotificationTime rest
    (next.1, (if r.notifierCalls = 1 then [now] else []) ++ next.2)

/-! ## `check_availability`

The rendered page is modelled by what the two `query_selector_all` calls
can see: a list of `.day-flex-col` groups (calendar days, in document
order), each a list of elements with their relevant CSS classes.  The
browser launch, the navigation and the `browser.close()` call are the await
points that can raise; one `AttemptEnv` fixes their outcomes for one
attempt of the retry loop.  Log and resource behaviour is recorded as an
event trace. -/

/-- An element of a day group, by the CSS classes the selectors test. -/
structure DayCell where
  isDayCell : Bool
  capacityEnough : Bool
  capacityFew : Bool
  deriving DecidableEq, Repr

/-- One `.day-flex-col` group: its elements. -/
abbrev DayColumn := List DayCell

/-- The rendered document: the `.day-flex-col` groups in order. -/
abbrev PageDoc := List DayColumn

/-- Whether a cell matches the selector
`'.day-cell.capacity-enough, .day-cell.capacity-few'` (lines 108–109). -/
def matchesAvailabilitySelector (c : DayCell) : Bool :=
  c.isDayCell && (c.capacityEnough || c.capacityFew)

/-- `query_selector_all` for the availability selector within one group. -/
def querySelectorSlots (col : DayColumn) : List DayCell :=
  col.filter matchesAvailabilitySelector

/-- External outcomes of one attempt: whether `p.chromium.launch` raises,
whether `page.goto` raises or yields a rendered document, and whether
`browser.close()` raises (with what message). -/
structure AttemptEnv where
  launch : Except (List Char) Unit
  nav : Except (List Char) PageDoc
  closeFails : Option (List Char)
  deriving Repr

/-- Observable events of an attempt, in order. -/
inductive Event where
  | launched
  | navigated
  | sleepSeconds (secs : Nat)
  | tomorrowLogged (count : Nat)
  | closed
  | closeFailLogged
  deriving DecidableEq, Repr

/-- `await asyncio.sleep(5)` on the navigation retry path (line 89). -/
def navRetrySleep : Nat := 5

/-- `await asyncio.sleep(10)` on the general retry path (line 135). -/
def errorRetrySleep : Nat := 10

/-- `day_flex_col[1] if len(day_flex_col) > 1 else None` (lines 112–113):
the second group, behind its explicit length guard. -/
def tomorrowColumn (doc : PageDoc) : Option DayColumn :=
  if h : 1 < doc.length then some (doc.get ⟨1, h⟩) else none

/-- How the `try:` body of one attempt (lines 71–129) ends. -/
inductive TryOutcome where
  | ret (b : Bool)
  | navRetry
  | raised (msg : List Char)
  deriving DecidableEq, Repr

/-- The `try:` body of one attempt.  `last` is `attempt = max_retries - 1`
(the negation of the `attempt < max_retries - 1` tests).  The navigation
`except` block (lines 84–92) closes the browser, sleeps and continues when
retries remain — its own `browser.close()` may raise, which escapes to the
outer handler — and re-raises on the last attempt. -/
def tryBody (env : AttemptEnv) (last : Bool) : TryOutcome × List Event :=
  match env.launch with
  | .error m => (.raised m, [])
  | .ok _ =>
    match env.nav with
    | .error m =>
      if last then (.raised m, [.launched])
      else
        match env.closeFails with
        | some cm => (.raised cm, [.launched, .closed])
        | none =>
          (.navRetry, [.launched, .closed, .sleepSeconds navRetrySleep])
    | .ok doc =>
      match doc with
      | [] => (.ret false, [.launched, .navigated])
      | todayColumn :: _ =>
        let availableSlots := querySelectorSlots todayColumn
        let tomorrowEvents :=
          match tomorrowColumn doc with
          | none => []
          | some col =>
            let tomorrowSlots := querySelectorSlots col
            if tomorrowSlots.isEmpty then []
            else [Event.tomorrowLogged tomorrowSlots.length]
        (.ret !availableSlots.isEmpty, [.launched, .navigated] ++ tomorrowEvents)

/-- One full iteration of the retry `for` loop: the `try:` body, then the
`except Exception` handler (lines 131–140), then the `finally:` block
(lines 141–146) which closes the browser when one was launched and absorbs
a close failure.  `.ok none` means `continue` to the next attempt; an
uncaught exception would surface as `.error`. -/
def attemptStep (env : AttemptEnv) (last : Bool) :
    Except (List Char) (Option Bool) × List Event :=
  let r := tryBody env last
  let finallyEvents : List Event :=
    match env.launch with
    | .error _ => []
    | .ok _ =>
      match env.closeFails with
      | none => [Event.closed]
      | some _ => [Event.closed, Event.closeFailLogged]
  match r.1 with
  | .ret b => (.ok (some b), r.2 ++ finallyEvents)
  | .navRetry => (.ok none, r.2 ++ finallyEvents)
  | .raised _ =>
    if last then (.ok (some false), r.2 ++ finallyEvents)
    else (.ok none, r.2 ++ [Event.sleepSeconds errorRetrySleep] ++ finallyEvents)

/-- The retry `for` loop (lines 69–148) over one environment per attempt
(the list length is `max_retries`, so the last element is attempt
`max_retries - 1`); falls through to `return False` (line 148) when every
attempt continues. -/
def checkRun : List AttemptEnv → Except (List Char) Bool × List Event
  | [] => (.ok false, [])
  | env :: rest =>
    let r := attemptStep env rest.isEmpty
    match r.1 with
    | .error m => (.error m, r.2)
    | .ok (some b) => (.ok b, r.2)
    | .ok none =>
      let next := checkRun rest
      (next.1, r.2 ++ next.2)

/-- Embedding of `check_availability` at the default `max_retries = 3`. -/
def check_availability (e1 e2 e3 : AttemptEnv) :
    Except (List Char) Bool × List Event :=
  checkRun [e1, e2, e3]

/-! ## `main` -/

/-- Observable outcome of `main` (lines 219–246). -/
structure MainResult where
  exitCode : Nat
  /-- Whether the usage summary of required/optional variables was printed. -/
  usagePrinted : Bool
  deriving DecidableEq, Repr

/-- Embedding of `main`: validation runs on the two configured URLs; when it
passes, the monitor loop runs over the given schedule (initial
`last_notification_time = 0`, line 189).  A `ValueError` prints the usage
summary and returns 1; the loop model only ends cleanly, giving 0. -/
def main (slackWebhookUrl clinicUrl : List Char) (notificationInterval : Int)
    (schedule : List IterInput) : MainResult :=
  match validate_environment slackWebhookUrl clinicUrl with
  | .error _ => { exitCode := 1, usagePrinted := true }
  | .ok _ =>
    match (monitor_bookings_run notificationInterval 0 schedule).1 with
    | .error _ => { exitCode := 1, usagePrinted := false }
    | .ok _ => { exitCode := 0, usagePrinted := false }

/-- The webhook POST did not succeed: non-2xx status, or a raised
transport error. -/
def webhookFailure (post : PostOutcome) : Prop :=
  match post with
  | .response s => s < 200 ∨ 300 ≤ s
  | .transportError _ => True

/-- The log line reports a failure (it is not the success line). -/
def logsFailure : NotifyLog → Bool
  | .sentOk => false
  | .failedStatus _ => true
  | .errorLogged _ => true

/-- An attempt whose `try:` body cannot reach a `return`: its browser
launch or its navigation raises. -/
def attemptFails (e : AttemptEnv) : Prop :=
  (∃ m, e.launch = .error m) ∨ (∃ m, e.nav = .error m)


example :
    validate_environment "https://hooks.slack.com/services/x".data
      "https://clinic.example.jp/book".data = .ok () := by rfl

example :
    validate_environment "https://hooks.example.com/x".data
      "https://clinic.example.jp/book".data = .error .webhookNotSlack := by
  rfl

example :
    validate_environment "hooks.slack.com".data
      "https://clinic.example.jp/book".data = .error .webhookInvalidUrl := by
  rfl


/-- **C3.** The Config Validator raises exactly when the webhook URL is
empty, not well-formed (missing scheme or netloc), or whose netloc does not
end in `slack.com`, or the clinic URL is empty or not well-formed; in
particular any webhook URL whose host does not end in the messaging
domain is rejected with some `ConfigError`.  In the embedding the success
value is `()`: the validator produces nothing on success. -/
theorem validate_environment_ok_iff (w c : List Char) :
    ((validate_environment w c = .ok ()) ↔
      (w.isEmpty = false ∧ wellFormedUrl w = true ∧
        List.isSuffixOf "slack.com".data (urlparse w).netloc = true ∧
        c.isEmpty = false ∧ wellFormedUrl c = true))
    ∧ (List.isSuffixOf "slack.com".data (urlparse w).netloc = false →
        ∃ e, validate_environment w c = .error e) := by
  constructor
  · simp only [validate_environment, wellFormedUrl]
    split_ifs with h1 h2 h3 h4 h5 <;> simp_all <;> tauto
  · intro hns
    simp only [validate_environment, wellFormedUrl]
    split_ifs with h1 h2 h3 h4 h5 <;> first
      | exact ⟨_, rfl⟩
      | simp_all

/-- `send_slack_notification` yields `.ok` on every POST outcome: the
`except` handler absorbs the transport-error raise. -/
theorem send_slack_notification_ok (post : PostOutcome) :
    ∃ l, send_slack_notification post = .ok l := by
  cases post with
  | response s =>
    by_cases h : s = 200 <;>
      simp [send_slack_notification, send_slack_notification_try, h]
  | transportError m => exact ⟨_, rfl⟩

/-- **C7.** `send_slack_notification` is total with respect to webhook
failures: its result is always `.ok` (the raise representable in its type
never escapes the `except` handler), and on a non-2xx response or a
transport error the resulting log line reports the failure. -/
theorem send_slack_notification_never_raises (post : PostOutcome) :
    (∃ l, send_slack_notification post = .ok l)
    ∧ (webhookFailure post →
        ∃ l, send_slack_notification post = .ok l ∧ logsFailure l = true) := by
  cases post with
  | response s =>
    constructor
    · by_cases h : s = 200 <;>
        simp [send_slack_notification, send_slack_notification_try, h]
    · intro hf
      have h200 : s ≠ 200 := by
        rcases hf with h | h <;> omega
      simp [send_slack_notification, send_slack_notification_try, h200,
        logsFailure]
  | transportError m =>
    exact ⟨⟨_, rfl⟩, fun _ => ⟨_, rfl, rfl⟩⟩

/-- The monitor loop always ends cleanly: every iteration absorbs its
errors, an interrupt breaks out of the loop, and an exhausted schedule
stops the model. -/
theorem monitor_bookings_run_ends_ok (interval : Int) :
    ∀ (sched : List IterInput) (last : Int),
      (monitor_bookings_run interval last sched).1 = .ok () := by
  intro sched
  induction sched with
  | nil => intro last; rfl
  | cons s rest ih =>
    intro last
    cases s with
    | interrupt => rfl
    | poll now avail post => simp [monitor_bookings_run, ih]

/-- **C8.** `main` exits with code 1 and prints the usage summary exactly
when `validate_environment` raises; when validation passes, the loop's
clean (normal or interrupted) shutdown gives exit code 0 with no usage
summary. -/
theorem main_exit_codes (w c : List Char) (interval : Int)
    (sched : List IterInput) :
    (∀ e, validate_environment w c = .error e →
        main w c interval sched = { exitCode := 1, usagePrinted := true })
    ∧ (validate_environment w c = .ok () →
        main w c interval sched = { exitCode := 0, usagePrinted := false }) := by
  constructor
  · intro e he
    simp [main, he]
  · intro h
    simp [main, h, monitor_bookings_run_ends_ok]

/-- Closed instances of `main_exit_codes`: an empty webhook URL exits 1
with the usage summary; a valid configuration with an interrupted loop
exits 0. -/
theorem main_exit_codes_witness :
    main [] "https://c.jp/a".data 1800 []
        = { exitCode := 1, usagePrinted := true }
    ∧ main "https://hooks.slack.com/x".data "https://c.jp/a".data 1800
        [IterInput.interrupt]
        = { exitCode := 0, usagePrinted := false } :=
  ⟨(main_exit_codes [] "https://c.jp/a".data 1800 []).1
      ConfigError.webhookRequired rfl,
    (main_exit_codes "https://hooks.slack.com/x".data "https://c.jp/a".data
      1800 [IterInput.interrupt]).2 rfl⟩

/-- Chronologically adjacent notifier invocations are separated by more
than the notification interval: when the run fires at time `t₂` right after
having fired at `t₁`, the loop state at the `t₂` iteration is exactly `t₁`,
and the guard forces `t₂ - t₁ > interval`.  Strengthened with the starting
state at the head. -/
theorem monitor_bookings_run_cooldown_aux (interval : Int)
    (sched : List IterInput) :
    ∀ last : Int,
      List.Chain' (fun t1 t2 => interval < t2 - t1)
        (last :: (monitor_bookings_run interval last sched).2) := by
  induction sched with
  | nil => intro last; simp [monitor_bookings_run]
  | cons s rest ih =>
    intro last
    cases s with
    | interrupt => simp [monitor_bookings_run]
    | poll now avail post =>
      by_cases ha : avail = true
      · by_cases ht : now - last > interval
        · have hstep : (monitor_step interval last now avail post).notifierCalls
              = 1 := by simp [monitor_step, ha, ht]
          have hlast : (monitor_step interval last now avail post).lastNotificationTime
              = now := by simp [monitor_step, ha, ht]
          simp only [monitor_bookings_run, hstep, hlast, if_pos]
          exact List.chain'_cons.mpr ⟨ht, ih now⟩
        · have hstep : monitor_step interval last now avail post
              = { lastNotificationTime := last, notifierCalls := 0,
                  notifyLog := none, skipLogged := true } := by
            simp [monitor_step, ha, ht]
          simpa [monitor_bookings_run, hstep] using ih last
      · have hstep : monitor_step interval last now avail post
            = { lastNotificationTime := last, notifierCalls := 0,
                notifyLog := none, skipLogged := false } := by
          simp [monitor_step, ha]
        simpa [monitor_bookings_run, hstep] using ih last

/-- **C1.** In one iteration the notifier is called exactly once iff the
availability check returned true and the recorded time exceeds the last
notification time by strictly more than the interval (and never more than
once); when it fires the stored time becomes the recorded time, otherwise
it is unchanged; and over any schedule, the times of consecutive notifier
invocations are separated by strictly more than the interval. -/
theorem monitor_step_notification_discipline
    (interval last now : Int) (avail : Bool) (post : PostOutcome)
    (start : Int) (sched : List IterInput) :
    ((monitor_step interval last now avail post).notifierCalls = 1
        ↔ (avail = true ∧ now - last > interval))
    ∧ (monitor_step interval last now avail post).notifierCalls ≤ 1
    ∧ ((monitor_step interval last now avail post).notifierCalls = 1 →
        (monitor_step interval last now avail post).lastNotificationTime = now)
    ∧ ((monitor_step interval last now avail post).notifierCalls = 0 →
        (monitor_step interval last now avail post).lastNotificationTime = last)
    ∧ List.Chain' (fun t1 t2 => interval < t2 - t1)
        (monitor_bookings_run interval start sched).2 := by
  refine ⟨?_, ?_, ?_, ?_, ?_⟩
  · constructor
    · intro h
      by_cases ha : avail = true
      · by_cases ht : now - last > interval
        · exact ⟨ha, ht⟩
        · simp [monitor_step, ha, ht] at h
      · simp [monitor_step, ha] at h
    · rintro ⟨ha, ht⟩
      simp [monitor_step, ha, ht]
  · by_cases ha : avail = true <;> by_cases ht : now - last > interval <;>
      simp [monitor_step, ha, ht]
  · intro h
    by_cases ha : avail = true <;> by_cases ht : now - last > interval <;>
      simp [monitor_step, ha, ht] at h ⊢
  · intro h
    by_cases ha : avail = true <;> by_cases ht : now - last > interval <;>
      simp [monitor_step, ha, ht] at h ⊢
  · exact (monitor_bookings_run_cooldown_aux interval sched start).tail

/-- **C2, counterexample.** An iteration with availability, an elapsed time
beyond the interval, and a webhook POST answered with HTTP 500: the
notifier logs the failure, yet `last_notification_time` moves from 0 to the
iteration's recorded time 2000 — the loop updates it after calling the
notifier whether or not the POST succeeded, because
`send_slack_notification` absorbs the failure and returns nothing. -/
theorem monitor_step_failed_webhook_updates_time :
    (monitor_step 1800 0 2000 true (.response 500)).notifyLog
        = some (.failedStatus 500)
    ∧ (monitor_step 1800 0 2000 true (.response 500)).lastNotificationTime
        = 2000
    ∧ (2000 : Int) ≠ 0 := by
  refine ⟨rfl, rfl, by decide⟩

/-- **C2, amended.** The last-notification time is updated immediately
after every notifier invocation, to the iteration's recorded time,
regardless of the webhook outcome: the new state is independent of the POST
result, and the notifier returns `.ok` on every outcome, so the loop cannot
observe a webhook failure. -/
theorem monitor_step_update_independent_of_webhook
    (interval last now : Int) (avail : Bool) (post post2 : PostOutcome) :
    (monitor_step interval last now avail post).lastNotificationTime
      = (monitor_step interval last now avail post2).lastNotificationTime
    ∧ ((monitor_step interval last now avail post).notifierCalls = 1 →
        (monitor_step interval last now avail post).lastNotificationTime
          = now)
    ∧ (∃ l, send_slack_notification post = .ok l) := by
  refine ⟨?_, ?_, ?_⟩
  · by_cases ha : avail = true <;> by_cases ht : now - last > interval <;>
      simp [monitor_step, ha, ht]
  · intro h
    by_cases ha : avail = true <;> by_cases ht : now - last > interval <;>
      simp [monitor_step, ha, ht] at h ⊢
  · exact send_slack_notification_ok post

/-- Every attempt's `except`/`finally` layer yields `.ok`: the raise from
the `try:` body is either turned into a retry (`.ok none`) or, on the last
attempt, into `return False`. -/
theorem attemptStep_ok (e : AttemptEnv) (last : Bool) :
    ∃ ob, (attemptStep e last).1 = .ok ob := by
  simp only [attemptStep]
  rcases ho : (tryBody e last).1 with b | _ | m <;> cases last <;> simp [ho]

/-- The whole retry loop yields `.ok`, by composing `attemptStep_ok`. -/
theorem checkRun_ok (envs : List AttemptEnv) :
    ∃ b, (checkRun envs).1 = .ok b := by
  induction envs with
  | nil => exact ⟨false, rfl⟩
  | cons e rest ih =>
    obtain ⟨ob, hob⟩ := attemptStep_ok e rest.isEmpty
    obtain ⟨b2, hb2⟩ := ih
    rcases ob with _ | b
    · exact ⟨b2, by simp [checkRun, hob, hb2]⟩
    · exact ⟨b, by simp [checkRun, hob]⟩

/-- If an attempt launched a browser, its trace closes one (the `finally:`
block); if the launch itself raised, no launch event exists at all. -/
theorem attemptStep_closes (e : AttemptEnv) (last : Bool) :
    Event.launched ∈ (attemptStep e last).2 →
      Event.closed ∈ (attemptStep e last).2 := by
  rcases hl : e.launch with m | u
  · intro hmem
    exfalso
    simp only [attemptStep, tryBody, hl] at hmem
    cases last <;> simp at hmem
  · intro _
    simp only [attemptStep, hl]
    rcases ho : (tryBody e last).1 with b | _ | m <;>
      rcases hc : e.closeFails with _ | cm <;> cases last <;> simp [ho, hc]

/-- Lift of `attemptStep_closes` to the whole retry loop trace. -/
theorem checkRun_closes (envs : List AttemptEnv) :
    Event.launched ∈ (checkRun envs).2 →
      Event.closed ∈ (checkRun envs).2 := by
  induction envs with
  | nil => intro h; simp [checkRun] at h
  | cons e rest ih =>
    intro h
    obtain ⟨ob, hob⟩ := attemptStep_ok e rest.isEmpty
    simp only [checkRun, hob] at h ⊢
    rcases ob with _ | b
    · simp only at h ⊢
      rcases List.mem_append.mp h with h1 | h2
      · exact List.mem_append.mpr (Or.inl (attemptStep_closes e rest.isEmpty h1))
      · exact List.mem_append.mpr (Or.inr (ih h2))
    · exact attemptStep_closes e rest.isEmpty h

/-- An attempt whose launch or navigation raises continues when retries
remain and returns `False` on the last attempt. -/
theorem attemptStep_fails (e : AttemptEnv) (h : attemptFails e) :
    (attemptStep e false).1 = .ok none
    ∧ (attemptStep e true).1 = .ok (some false) := by
  rcases h with ⟨m, hm⟩ | ⟨m, hm⟩
  · constructor <;> simp [attemptStep, tryBody, hm]
  · rcases hl : e.launch with ml | u
    · constructor <;> simp [attemptStep, tryBody, hl]
    · rcases hc : e.closeFails with _ | cm <;>
        constructor <;> simp [attemptStep, tryBody, hl, hm, hc]

/-- **C4.** `check_availability` never propagates an error: its result is
always `.ok`; the general retry delay is strictly longer than the
navigation retry delay; when all three attempts fail it returns `false`
rather than raising; and a raised attempt with retries remaining sleeps
for the general retry delay. -/
theorem check_availability_never_raises (e1 e2 e3 : AttemptEnv) :
    (∃ b, (check_availability e1 e2 e3).1 = .ok b)
    ∧ navRetrySleep < errorRetrySleep
    ∧ (attemptFails e1 → attemptFails e2 → attemptFails e3 →
        (check_availability e1 e2 e3).1 = .ok false)
    ∧ (∀ m, (tryBody e1 false).1 = .raised m →
        Event.sleepSeconds errorRetrySleep ∈ (attemptStep e1 false).2) := by
  refine ⟨checkRun_ok _, by simp [navRetrySleep, errorRetrySleep], ?_, ?_⟩
  · intro h1 h2 h3
    have s1 := (attemptStep_fails e1 h1).1
    have s2 := (attemptStep_fails e2 h2).1
    have s3 := (attemptStep_fails e3 h3).2
    simp [check_availability, checkRun, s1, s2, s3]
  · intro m hm
    simp [attemptStep, hm]

/-- A first attempt that launches and navigates successfully determines the
result from the rendered document alone: `false` when no `.day-flex-col`
group exists, otherwise whether the first group has a matching cell. -/
theorem check_availability_rendered (doc : PageDoc) (cf : Option (List Char))
    (e2 e3 : AttemptEnv) :
    (check_availability ⟨.ok (), .ok doc, cf⟩ e2 e3).1
      = .ok (match doc with
          | [] => false
          | todayColumn :: _ => !(querySelectorSlots todayColumn).isEmpty) := by
  rcases doc with _ | ⟨t, rest⟩ <;>
    simp [check_availability, checkRun, attemptStep, tryBody]

/-- **C5.** On a successful page load the check returns `true` iff the
first calendar-day group contains a `.day-cell` with `capacity-enough` or
`capacity-few`; with no day group at all it returns `false`. -/
theorem check_availability_today_iff (todayColumn : DayColumn)
    (rest : List DayColumn) (cf : Option (List Char)) (e2 e3 : AttemptEnv) :
    ((check_availability ⟨.ok (), .ok (todayColumn :: rest), cf⟩ e2 e3).1
        = .ok true
      ↔ ∃ cell ∈ todayColumn, matchesAvailabilitySelector cell = true)
    ∧ (check_availability ⟨.ok (), .ok [], cf⟩ e2 e3).1 = .ok false := by
  constructor
  · rw [check_availability_rendered]
    simp [querySelectorSlots, List.isEmpty_iff, List.filter_eq_nil_iff]
  · rw [check_availability_rendered]

/-- **C6.** Inspecting the second ("tomorrow") group has no behavioral
impact: two rendered documents with the same first group and arbitrarily
different second groups give the same boolean (whatever the later attempts
or the close outcomes are). -/
theorem tomorrow_no_behavioral_impact (todayColumn g1 g2 : DayColumn)
    (rest : List DayColumn) (cf cf2 : Option (List Char))
    (e2 e3 f2 f3 : AttemptEnv) :
    (check_availability ⟨.ok (), .ok (todayColumn :: g1 :: rest), cf⟩ e2 e3).1
      = (check_availability
          ⟨.ok (), .ok (todayColumn :: g2 :: rest), cf2⟩ f2 f3).1 := by
  rw [check_availability_rendered, check_availability_rendered]

/-- **C9.** The browser session is released on every exit path: an attempt
trace that launched also closed (per attempt and over the whole loop), a
failure of `browser.close()` in the `finally:` block changes neither the
result nor lets anything propagate, and every attempt ends in `.ok`. -/
theorem browser_always_released (envs : List AttemptEnv) (e : AttemptEnv)
    (last : Bool) (doc : PageDoc) (m : List Char) :
    (Event.launched ∈ (attemptStep e last).2 →
        Event.closed ∈ (attemptStep e last).2)
    ∧ (Event.launched ∈ (checkRun envs).2 →
        Event.closed ∈ (checkRun envs).2)
    ∧ (attemptStep ⟨.ok (), .ok doc, some m⟩ last).1
        = (attemptStep ⟨.ok (), .ok doc, none⟩ last).1
    ∧ (∃ ob, (attemptStep e last).1 = .ok ob) := by
  refine ⟨attemptStep_closes e last, checkRun_closes envs, ?_,
    attemptStep_ok e last⟩
  rcases doc with _ | ⟨t, r⟩ <;> simp [attemptStep, tryBody]

/-- **C10.** With exactly one calendar-day group the guarded lookup of the
second group is `none`, the "tomorrow" log event cannot occur, and the
result is computed from the first group alone. -/
theorem single_day_group_guard (todayColumn : DayColumn)
    (cf : Option (List Char)) (e2 e3 : AttemptEnv) :
    tomorrowColumn [todayColumn] = none
    ∧ (check_availability ⟨.ok (), .ok [todayColumn], cf⟩ e2 e3).1
        = .ok (!(querySelectorSlots todayColumn).isEmpty)
    ∧ (∀ n, Event.tomorrowLogged n ∉
        (check_availability ⟨.ok (), .ok [todayColumn], cf⟩ e2 e3).2) := by
  refine ⟨by simp [tomorrowColumn], check_availability_rendered _ _ _ _, ?_⟩
  intro n
  rcases cf with _ | cm <;>
    simp [check_availability, checkRun, attemptStep, tryBody, tomorrowColumn]

end ClinicMonitor
